import Mathlib

/-!
Verification of the particle function builder
(`source/blender/simulations/bparticles/particle_function_builder.cpp`).

Shallow-embedding conventions:
* C++ `Vector<T>` / `ArrayRef<T>` become `List T`.
* `SetVector<T>` (insertion-ordered deduplicating container) is modelled by a
  `List` built with `setvector_add` / `setvector_add_multiple`.
* Scalar `float` values are modelled as exact integers (`Int`).
* A `BLI_assert` failure (fatal contract violation) is modelled by the `none`
  branch of an `Option` result; the factory's `BLI_assert(false); return
  nullptr` unsupported-combination path is likewise `none`.
* The batch-scoped `ArrayAllocator` is modelled by explicit state passing: a
  provider `get` returns the (possibly grown) allocator next to its result, so
  that allocation behaviour is observable in the embedding.
-/

namespace BParticles

/-- `FN::DataSocket`: identity is structural (output flag plus id). -/
structure DataSocket where
  is_output : Bool
  id : Nat
deriving DecidableEq, Repr

/-- `BKE::VirtualSocket`: an authoring-level named reference.  The field
`vnode_idname` models `vsocket->vnode()->idname()`, i.e. the kind of the
owning authoring node. -/
structure VirtualSocket where
  id : Nat
  name : String
  vnode_idname : String
deriving DecidableEq, Repr

/-- `BKE::VirtualNode`, restricted to the fields the builder reads. -/
structure VirtualNode where
  idname : String
  name : String
  inputs : List VirtualSocket

/-- Result of `VTreeDataGraph::find_placeholder_dependencies`: parallel lists
of placeholder data sockets and the virtual sockets they originate from. -/
structure PlaceholderDependencies where
  sockets : List DataSocket
  vsockets : List VirtualSocket

/-- `dependencies.size()` in the C++ source. -/
def PlaceholderDependencies.size (d : PlaceholderDependencies) : Nat :=
  d.sockets.length

/-- The externally owned data graph, abstracted to the two operations the
builder uses: socket lookup by virtual socket (absent mapping is valid) and
placeholder-dependency discovery. -/
structure VTreeDataGraph where
  lookup_socket_ptr : VirtualSocket → Option DataSocket
  find_placeholder_dependencies : DataSocket → PlaceholderDependencies

/-- `SetVector::add`: append the element unless it is already present. -/
def setvector_add {α : Type} [DecidableEq α] (v : List α) (x : α) : List α :=
  if x ∈ v then v else v ++ [x]

/-- `SetVector::add_multiple`: add the elements in order. -/
def setvector_add_multiple {α : Type} [DecidableEq α] (v : List α) (xs : List α) : List α :=
  xs.foldl setvector_add v

/-- `find_input_data_sockets`: collect the data sockets of the node's inputs
that resolve in the graph; virtual sockets without a mapping are skipped. -/
def find_input_data_sockets (vnode : VirtualNode) (data_graph : VTreeDataGraph) :
    List DataSocket :=
  vnode.inputs.filterMap data_graph.lookup_socket_ptr

/-- `SocketDependencies`: the combined Dependency Set (two parallel
insertion-ordered deduplicated collections). -/
structure SocketDependencies where
  sockets : List DataSocket
  vsockets : List VirtualSocket

/-- Loop body of `find_particle_dependencies`: for each requested socket query
the graph, record whether its own dependency set is non-empty, and merge its
dependencies into the combined accumulator. -/
def find_particle_dependencies_loop (g : VTreeDataGraph) (acc : SocketDependencies) :
    List DataSocket → SocketDependencies × List Bool
  | [] => (acc, [])
  | socket :: rest =>
    let dependencies := g.find_placeholder_dependencies socket
    let has_dependency := decide (0 < dependencies.size)
    let acc' : SocketDependencies :=
      { sockets := setvector_add_multiple acc.sockets dependencies.sockets,
        vsockets := setvector_add_multiple acc.vsockets dependencies.vsockets }
    let rest_result := find_particle_dependencies_loop g acc' rest
    (rest_result.1, has_dependency :: rest_result.2)

/-- `find_particle_dependencies`: returns the combined Dependency Set and the
per-requested-socket dependency flags (`r_depends_on_particle_flags`). -/
def find_particle_dependencies (g : VTreeDataGraph) (sockets : List DataSocket) :
    SocketDependencies × List Bool :=
  find_particle_dependencies_loop g { sockets := [], vsockets := [] } sockets

/-- The closed set of input-provider variants (C++ subclasses of
`ParticleFunctionInputProvider`); the attribute provider captures its
attribute name (`m_name`). -/
inductive ParticleFunctionInputProvider where
  | AgeInputProvider : ParticleFunctionInputProvider
  | AttributeInputProvider (m_name : String) : ParticleFunctionInputProvider
  | CollisionNormalInputProvider : ParticleFunctionInputProvider
deriving DecidableEq, Repr

/-- `ParticleFunctionInputArray`: a view over a value buffer with its stride
and ownership flag (`is_owned`). -/
structure ParticleFunctionInputArray where
  buffer : List Int
  stride : Nat
  is_owned : Bool
deriving DecidableEq, Repr

/-- Batch-scoped `ArrayAllocator`, modelled as explicit state: `fresh n` is
the (uninitialized, unspecified) content of the `n`-th allocation and `count`
the number of allocations made so far.  `allocate<float>()` hands out a buffer
of `array_size` elements. -/
structure ArrayAllocator where
  array_size : Nat
  fresh : Nat → List Int
  count : Nat

/-- `ArrayAllocator::allocate`: return the next uninitialized buffer and the
grown allocator state. -/
def ArrayAllocator.allocate (a : ArrayAllocator) : List Int × ArrayAllocator :=
  (a.fresh a.count, { a with count := a.count + 1 })

/-- `AttributeArrays`: externally owned per-particle column storage, exposing
index lookup by name, per-column stride and the raw column buffer. -/
structure AttributeArrays where
  attribute_index : String → Nat
  attribute_stride : Nat → Nat
  get_ptr : Nat → List Int

/-- `attributes.get<float>(name)`. -/
def AttributeArrays.get_float (a : AttributeArrays) (name : String) : List Int :=
  a.get_ptr (a.attribute_index name)

/-- `ParticleTimes`: tagged variant describing how current time is known. -/
inductive ParticleTimes where
  | Current (current_times : List Int) : ParticleTimes
  | DurationAndEnd (remaining_durations : List Int) (end_time : Int) : ParticleTimes

/-- The polymorphic evaluation-time action context; collision events carry
the surface normals, any other kind is represented by `otherContext`. -/
inductive ActionContext where
  | collisionEventInfo (normals : List Int) : ActionContext
  | otherContext (tag : Nat) : ActionContext
deriving DecidableEq, Repr

/-- `ParticleSet`: attribute storage plus the batch's active particle
indices (`pindices`, a possibly sparse index set). -/
structure ParticleSet where
  attributes : AttributeArrays
  pindices : List Nat

/-- `InputProviderInterface`: everything a provider may read at evaluation
time. -/
structure InputProviderInterface where
  particles : ParticleSet
  array_allocator : ArrayAllocator
  particle_times : ParticleTimes
  action_context : Option ActionContext

/-- `AttributeInputProvider::get`: look up the named attribute column and
return a non-owning view over it; the allocator is untouched. -/
def AttributeInputProvider.get (m_name : String) (interface : InputProviderInterface) :
    Option ParticleFunctionInputArray × ArrayAllocator :=
  let attributes := interface.particles.attributes
  let attribute_index := attributes.attribute_index m_name
  let stride := attributes.attribute_stride attribute_index
  let buffer := attributes.get_ptr attribute_index
  (some { buffer := buffer, stride := stride, is_owned := false }, interface.array_allocator)

/-- `CollisionNormalInputProvider::get`: checked downcast of the action
context; an absent context or a context of the wrong kind hits a
`BLI_assert` (modelled `none`), otherwise a non-owning view over the event's
normals is returned. -/
def CollisionNormalInputProvider.get (interface : InputProviderInterface) :
    Option ParticleFunctionInputArray × ArrayAllocator :=
  match interface.action_context with
  | none => (none, interface.array_allocator)
  | some action_context =>
    match action_context with
    | ActionContext.collisionEventInfo normals =>
        (some { buffer := normals, stride := 12, is_owned := false },
         interface.array_allocator)
    | ActionContext.otherContext _ => (none, interface.array_allocator)

/-- `AgeInputProvider::get`: allocate a fresh batch-sized buffer and write
`age = current_time - birth_time` at each active particle index, where
current time comes from the active `ParticleTimes` variant; the returned view
is owning. -/
def AgeInputProvider.get (interface : InputProviderInterface) :
    Option ParticleFunctionInputArray × ArrayAllocator :=
  let birth_times := interface.particles.attributes.get_float "Birth Time"
  let alloc_result := interface.array_allocator.allocate
  let ages := alloc_result.1
  let ages' :=
    match interface.particle_times with
    | ParticleTimes.Current current_times =>
        interface.particles.pindices.foldl
          (fun buf pindex =>
            buf.set pindex (current_times.getD pindex 0 - birth_times.getD pindex 0))
          ages
    | ParticleTimes.DurationAndEnd remaining_durations end_time =>
        interface.particles.pindices.foldl
          (fun buf pindex =>
            buf.set pindex (end_time - remaining_durations.getD pindex 0 -
              birth_times.getD pindex 0))
          ages
  (some { buffer := ages', stride := 4, is_owned := true }, alloc_result.2)

/-- The `STREQ` macro. -/
def STREQ (a b : String) : Bool := a == b

/-- `create_input_provider`: dispatch on the owning node's idname and the
input socket's name; `none` models the `BLI_assert(false); return nullptr`
fatal path for unsupported combinations. -/
def create_input_provider (vsocket : VirtualSocket) :
    Option ParticleFunctionInputProvider :=
  if STREQ vsocket.vnode_idname "bp_ParticleInfoNode" then
    if STREQ vsocket.name "Age" then
      some ParticleFunctionInputProvider.AgeInputProvider
    else
      some (ParticleFunctionInputProvider.AttributeInputProvider vsocket.name)
  else if STREQ vsocket.vnode_idname "bp_CollisionInfoNode" then
    some ParticleFunctionInputProvider.CollisionNormalInputProvider
  else
    none

/-- Execution bodies the code-generation backend can attach to a function:
the interpreted strategy (`fgraph_add_TupleCallBody`) and the compiled native
strategy (`fgraph_add_LLVMBuildIRBody`). -/
inductive FunctionBody where
  | TupleCallBody : FunctionBody
  | LLVMBuildIRBody : FunctionBody
deriving DecidableEq, Repr

/-- `FN::SharedFunction`, restricted to what the builder determines: name,
formal inputs, outputs, and the attached execution bodies in attachment
order. -/
structure SharedFunction where
  name : String
  inputs : List DataSocket
  outputs : List DataSocket
  bodies : List FunctionBody

/-- Default virtual socket used to totalize indexed access (`vsockets[i]`). -/
def default_vsocket : VirtualSocket := { id := 0, name := "", vnode_idname := "" }

/-- `create_function__with_deps`: build the runtime-dependent function whose
inputs are the Dependency Set's sockets, fill the providers array from the
Dependency Set's virtual sockets index by index, and attach both the
interpreted and the compiled body.  Returns the function next to the filled
`r_input_providers` array. -/
def create_function__with_deps (function_name : String)
    (sockets_to_compute : List DataSocket) (dependencies : SocketDependencies) :
    SharedFunction × List (Option ParticleFunctionInputProvider) :=
  let input_amount := dependencies.sockets.length
  let input_providers := (List.range input_amount).map
    (fun i => create_input_provider (dependencies.vsockets.getD i default_vsocket))
  ({ name := function_name,
     inputs := dependencies.sockets,
     outputs := sockets_to_compute,
     bodies := [FunctionBody.TupleCallBody, FunctionBody.LLVMBuildIRBody] },
   input_providers)

/-- `create_function__without_deps`: build the constant function with no
inputs and only the interpreted body attached. -/
def create_function__without_deps (function_name : String)
    (sockets_to_compute : List DataSocket) : SharedFunction :=
  { name := function_name,
    inputs := [],
    outputs := sockets_to_compute,
    bodies := [FunctionBody.TupleCallBody] }

/-- The `ParticleFunction` facade: both callables, the providers array and
the full per-requested-output dependency flags. -/
structure ParticleFunction where
  fn_without_deps : SharedFunction
  fn_with_deps : SharedFunction
  input_providers : List (Option ParticleFunctionInputProvider)
  depends_on_particle_flags : List Bool

/-- The stable-partition loop at the top of
`create_particle_function_from_sockets`: requested sockets are split by their
dependency flag, consumed positionally, preserving relative order. -/
def partition_sockets {α : Type} : List α → List Bool → List α × List α
  | [], _ => ([], [])
  | _ :: _, [] => ([], [])
  | s :: rest, b :: bs =>
    let p := partition_sockets rest bs
    if b then (s :: p.1, p.2) else (p.1, s :: p.2)

/-- Modelled from the spec: the order-preserving merge guided by the
dependency-flag array that recombines the two partitions into the original
requested order (spec section 8, round-trip property). -/
def merge_by_flags {α : Type} : List Bool → List α → List α → List α
  | [], _, _ => []
  | true :: fs, w, wo =>
    match w with
    | [] => []
    | x :: xs => x :: merge_by_flags fs xs wo
  | false :: fs, w, wo =>
    match wo with
    | [] => []
    | y :: ys => y :: merge_by_flags fs w ys

/-- `create_particle_function_from_sockets`: partition the requested sockets,
build both functions, and assemble the `ParticleFunction`.  `ValueOrError` is
modelled as `Except String`; the current behaviour always returns the success
variant. -/
def create_particle_function_from_sockets (name : String)
    (sockets_to_compute : List DataSocket) (depends_on_particle_flags : List Bool)
    (dependencies : SocketDependencies) : Except String ParticleFunction :=
  let p := partition_sockets sockets_to_compute depends_on_particle_flags
  let sockets_with_deps := p.1
  let sockets_without_deps := p.2
  let fn_without_deps := create_function__without_deps name sockets_without_deps
  let with_result := create_function__with_deps name sockets_with_deps dependencies
  Except.ok
    { fn_without_deps := fn_without_deps,
      fn_with_deps := with_result.1,
      input_providers := with_result.2,
      depends_on_particle_flags := depends_on_particle_flags }

/-- `create_particle_function`: the top-level entry point building a
`ParticleFunction` from a node and a data graph. -/
def create_particle_function (vnode : VirtualNode) (data_graph : VTreeDataGraph) :
    Except String ParticleFunction :=
  let sockets_to_compute := find_input_data_sockets vnode data_graph
  let analysis := find_particle_dependencies data_graph sockets_to_compute
  let name := vnode.name ++ " Inputs"
  create_particle_function_from_sockets name sockets_to_compute analysis.2 analysis.1

/-! Concrete sample data used by witness theorems. -/

/-- An injective pairing of data sockets to originating virtual sockets, used
to build concrete graphs for witnesses. -/
def phi0 (s : DataSocket) : VirtualSocket :=
  { id := 2 * s.id + (if s.is_output then 1 else 0),
    name := "Dep",
    vnode_idname := "bp_ParticleInfoNode" }

/-- A concrete data graph: the socket with id 0 depends on itself as a
placeholder (paired through `phi0`), every other socket is constant. -/
def sampleGraph : VTreeDataGraph :=
  { lookup_socket_ptr := fun _ => none,
    find_placeholder_dependencies := fun s =>
      if s.id = 0 then { sockets := [s], vsockets := [phi0 s] }
      else { sockets := [], vsockets := [] } }

/-- Concrete attribute storage: column 0 is "Birth Time" with values
[0, 2, 10]. -/
def sampleAttributes : AttributeArrays :=
  { attribute_index := fun n => if n = "Birth Time" then 0 else 1,
    attribute_stride := fun _ => 4,
    get_ptr := fun idx => if idx = 0 then [0, 2, 10] else [] }

/-- Concrete evaluation interface for the derived-age witness: batch size 3,
sparse active set {0, 2}, current-time variant, uninitialized buffers filled
with 9. -/
def sampleInterfaceAge : InputProviderInterface :=
  { particles := { attributes := sampleAttributes, pindices := [0, 2] },
    array_allocator := { array_size := 3, fresh := fun _ => [9, 9, 9], count := 0 },
    particle_times := ParticleTimes.Current [5, 5, 5],
    action_context := none }

/-- Concrete evaluation interface for the collision witness: the supplied
action context is present but not of the collision-event kind. -/
def sampleInterfaceCollision : InputProviderInterface :=
  { particles := { attributes := sampleAttributes, pindices := [0] },
    array_allocator := { array_size := 1, fresh := fun _ => [0], count := 0 },
    particle_times := ParticleTimes.Current [0],
    action_context := some (ActionContext.otherContext 0) }

/-- A concrete Dependency Set with one entry. -/
def sampleDependencies : SocketDependencies :=
  { sockets := [{ is_output := true, id := 4 }],
    vsockets := [{ id := 7, name := "Age", vnode_idname := "bp_ParticleInfoNode" }] }

/-! Helper lemmas. -/

/-- The dependency flags are a pointwise function of the requested sockets,
independent of the accumulator. -/
theorem find_particle_dependencies_loop_flags (g : VTreeDataGraph)
    (socks : List DataSocket) :
    ∀ acc : SocketDependencies,
      (find_particle_dependencies_loop g acc socks).2 =
        socks.map (fun s => decide (0 < (g.find_placeholder_dependencies s).size)) := by
  induction socks with
  | nil => intro acc; rfl
  | cons s rest ih =>
    intro acc
    simp only [find_particle_dependencies_loop, List.map_cons]
    rw [ih]

/-- `SetVector::add` commutes with mapping an injective function. -/
theorem setvector_add_map {α β : Type} [DecidableEq α] [DecidableEq β]
    {f : α → β} (hf : Function.Injective f) (l : List α) (x : α) :
    setvector_add (l.map f) (f x) = (setvector_add l x).map f := by
  unfold setvector_add
  by_cases hx : x ∈ l
  · simp [hx, List.mem_map_of_injective hf]
  · simp [hx, List.mem_map_of_injective hf]

/-- `SetVector::add_multiple` commutes with mapping an injective function. -/
theorem setvector_add_multiple_map {α β : Type} [DecidableEq α] [DecidableEq β]
    {f : α → β} (hf : Function.Injective f) (xs : List α) :
    ∀ l : List α,
      setvector_add_multiple (l.map f) (xs.map f) = (setvector_add_multiple l xs).map f := by
  induction xs with
  | nil => intro l; rfl
  | cons x rest ih =>
    intro l
    simp only [List.map_cons, setvector_add_multiple, List.foldl_cons] at *
    rw [setvector_add_map hf, ih]

/-- The accumulation loop preserves the pairing of sockets and virtual
sockets whenever the graph reports paired dependency lists. -/
theorem find_particle_dependencies_loop_pair (g : VTreeDataGraph)
    {f : DataSocket → VirtualSocket} (hf : Function.Injective f)
    (hpair : ∀ s, (g.find_placeholder_dependencies s).vsockets =
      (g.find_placeholder_dependencies s).sockets.map f)
    (socks : List DataSocket) :
    ∀ acc : SocketDependencies, acc.vsockets = acc.sockets.map f →
      ((find_particle_dependencies_loop g acc socks).1).vsockets =
        ((find_particle_dependencies_loop g acc socks).1).sockets.map f := by
  induction socks with
  | nil => intro acc hacc; exact hacc
  | cons s rest ih =>
    intro acc hacc
    simp only [find_particle_dependencies_loop]
    apply ih
    simp only [hacc, hpair s]
    exact setvector_add_multiple_map hf _ acc.sockets

/-- Reading an entry after the write loop `for p in l: buf[p] := v p`:
indices in `l` (and in range) hold `v`, all other entries are untouched. -/
theorem getD_foldl_set (v : Nat → Int) (l : List Nat) :
    ∀ (buf : List Int) (q : Nat),
      (l.foldl (fun b p => b.set p (v p)) buf).getD q 0 =
        if q ∈ l ∧ q < buf.length then v q else buf.getD q 0 := by
  induction l with
  | nil => intro buf q; simp
  | cons p rest ih =>
    intro buf q
    simp only [List.foldl_cons]
    rw [ih]
    by_cases hq : q ∈ rest ∧ q < (buf.set p (v p)).length
    · rw [if_pos hq]
      rw [if_pos ⟨List.mem_cons_of_mem p hq.1, by simpa using hq.2⟩]
    · rw [if_neg hq]
      rw [List.length_set] at hq
      by_cases hqp : q = p
      · subst hqp
        by_cases hlen : q < buf.length
        · rw [if_pos ⟨List.mem_cons_self q rest, hlen⟩]
          rw [List.getD_eq_getElem?_getD, List.getElem?_set_self]
          · simp
          · exact hlen
        · rw [if_neg (fun h => hlen h.2)]
          rw [List.getD_eq_default _ _ (by simpa using Nat.le_of_not_lt hlen),
            List.getD_eq_default _ _ (Nat.le_of_not_lt hlen)]
      · rw [List.getD_eq_getElem?_getD, List.getElem?_set_ne (fun h => hqp h.symm),
          ← List.getD_eq_getElem?_getD]
        have : ¬(q ∈ p :: rest ∧ q < buf.length) := by
          intro h
          rcases List.mem_cons.mp h.1 with h1 | h1
          · exact hqp h1
          · exact hq ⟨h1, h.2⟩
        rw [if_neg this]

/-- The partition loop applied to pointwise flags is the pair of filters. -/
theorem partition_sockets_map {α : Type} (f : α → Bool) (l : List α) :
    partition_sockets l (l.map f) =
      (l.filter f, l.filter (fun x => ! f x)) := by
  induction l with
  | nil => rfl
  | cons x xs ih =>
    simp only [List.map_cons, partition_sockets, ih]
    by_cases hx : f x <;> simp [hx, List.filter_cons]

/-- Merging the two filters guided by the pointwise flags reconstructs the
original list. -/
theorem merge_by_flags_filter {α : Type} (f : α → Bool) (l : List α) :
    merge_by_flags (l.map f) (l.filter f) (l.filter (fun x => ! f x)) = l := by
  induction l with
  | nil => rfl
  | cons x xs ih =>
    by_cases hx : f x <;> simp [merge_by_flags, hx, List.filter_cons, ih]

/-! Claim theorems. -/

/-- Claim C1: the Provider Factory returns exactly one provider chosen by the
owning node's kind and the input's name: particle-info with "Age" yields the
derived-age provider, particle-info with any other name yields an
attribute-backed provider capturing that name, collision-info yields the
collision-normal provider, and any other combination is the fatal
configuration-error path (`none`), never a defaulted provider. -/
theorem claim_C1 (vsocket : VirtualSocket) :
    create_input_provider vsocket =
      (if vsocket.vnode_idname = "bp_ParticleInfoNode" then
        (if vsocket.name = "Age" then
          some ParticleFunctionInputProvider.AgeInputProvider
        else
          some (ParticleFunctionInputProvider.AttributeInputProvider vsocket.name))
      else if vsocket.vnode_idname = "bp_CollisionInfoNode" then
        some ParticleFunctionInputProvider.CollisionNormalInputProvider
      else
        none) := by
  simp only [create_input_provider, STREQ, beq_iff_eq]

/-- Claim C3: the partition of the requested sockets guided by the dependency
flags is stable (both sub-lists are sublists of the original, preserving
relative order), the sub-lists are disjoint, and the flag-guided merge
reconstructs the original requested list exactly. -/
theorem claim_C3 (g : VTreeDataGraph) (sockets_to_compute : List DataSocket) :
    List.Sublist (partition_sockets sockets_to_compute
        ((find_particle_dependencies g sockets_to_compute).2)).1 sockets_to_compute ∧
    List.Sublist (partition_sockets sockets_to_compute
        ((find_particle_dependencies g sockets_to_compute).2)).2 sockets_to_compute ∧
    (∀ s, s ∈ (partition_sockets sockets_to_compute
        ((find_particle_dependencies g sockets_to_compute).2)).1 →
      s ∉ (partition_sockets sockets_to_compute
        ((find_particle_dependencies g sockets_to_compute).2)).2) ∧
    merge_by_flags ((find_particle_dependencies g sockets_to_compute).2)
      (partition_sockets sockets_to_compute
        ((find_particle_dependencies g sockets_to_compute).2)).1
      (partition_sockets sockets_to_compute
        ((find_particle_dependencies g sockets_to_compute).2)).2 = sockets_to_compute := by
  have hflags : (find_particle_dependencies g sockets_to_compute).2 =
      sockets_to_compute.map
        (fun s => decide (0 < (g.find_placeholder_dependencies s).size)) :=
    find_particle_dependencies_loop_flags g sockets_to_compute _
  rw [hflags, partition_sockets_map]
  refine ⟨List.filter_sublist _, List.filter_sublist _, ?_, merge_by_flags_filter _ _⟩
  intro s hs hs'
  have h1 := (List.mem_filter.mp hs).2
  have h2 := (List.mem_filter.mp hs').2
  rw [h1] at h2
  exact absurd h2 (by simp)

/-- Claim C4: at every point of the dependency accumulation (i.e. after any
prefix of the requested sockets), the two collections of the combined
Dependency Set have equal size and are index-aligned, given that the data
graph reports placeholder sockets consistently paired (through an injective
correspondence `f`) with their originating virtual sockets. -/
theorem claim_C4 (g : VTreeDataGraph) (sockets : List DataSocket)
    (f : DataSocket → VirtualSocket) (hf : Function.Injective f)
    (hpair : ∀ s, (g.find_placeholder_dependencies s).vsockets =
      (g.find_placeholder_dependencies s).sockets.map f)
    (k : Nat) :
    ((find_particle_dependencies g (sockets.take k)).1).sockets.length =
        ((find_particle_dependencies g (sockets.take k)).1).vsockets.length ∧
      ((find_particle_dependencies g (sockets.take k)).1).vsockets =
        ((find_particle_dependencies g (sockets.take k)).1).sockets.map f := by
  have h : ((find_particle_dependencies g (sockets.take k)).1).vsockets =
      ((find_particle_dependencies g (sockets.take k)).1).sockets.map f :=
    find_particle_dependencies_loop_pair g hf hpair (sockets.take k)
      { sockets := [], vsockets := [] } rfl
  exact ⟨by rw [h, List.length_map], h⟩

/-- Claim C4 witness: instantiation on a concrete graph, socket list and
pairing. -/
theorem claim_C4_witness :
    Function.Injective phi0 ∧
    (∀ s, (sampleGraph.find_placeholder_dependencies s).vsockets =
      (sampleGraph.find_placeholder_dependencies s).sockets.map phi0) ∧
    (((find_particle_dependencies sampleGraph
        ([{ is_output := false, id := 0 }, { is_output := true, id := 3 }].take 2)).1).sockets.length =
      ((find_particle_dependencies sampleGraph
        ([{ is_output := false, id := 0 }, { is_output := true, id := 3 }].take 2)).1).vsockets.length ∧
      ((find_particle_dependencies sampleGraph
        ([{ is_output := false, id := 0 }, { is_output := true, id := 3 }].take 2)).1).vsockets =
        ((find_particle_dependencies sampleGraph
          ([{ is_output := false, id := 0 }, { is_output := true, id := 3 }].take 2)).1).sockets.map phi0) := by
  have hinj : Function.Injective phi0 := by
    intro a b h
    have hid := congrArg VirtualSocket.id h
    cases a with
    | mk ao ai =>
      cases b with
      | mk bo bi =>
        simp only [phi0] at hid
        cases ao <;> cases bo <;> simp at hid <;>
          first
            | (exfalso; omega)
            | (simp [DataSocket.mk.injEq]; omega)
  have hpair : ∀ s, (sampleGraph.find_placeholder_dependencies s).vsockets =
      (sampleGraph.find_placeholder_dependencies s).sockets.map phi0 := by
    intro s
    simp only [sampleGraph]
    by_cases h : s.id = 0 <;> simp [h]
  exact ⟨hinj, hpair,
    claim_C4 sampleGraph [{ is_output := false, id := 0 }, { is_output := true, id := 3 }]
      phi0 hinj hpair 2⟩

/-- Claim C5: the i-th dependency flag is true if and only if the i-th
requested socket's own placeholder-dependency set is non-empty. -/
theorem claim_C5 (g : VTreeDataGraph) (socks : List DataSocket) (i : Nat)
    (hi : i < socks.length) :
    ((find_particle_dependencies g socks).2.getD i false = true ↔
      (g.find_placeholder_dependencies
        (socks.getD i { is_output := false, id := 0 })).sockets ≠ []) := by
  have hflags : (find_particle_dependencies g socks).2 =
      socks.map (fun s => decide (0 < (g.find_placeholder_dependencies s).size)) :=
    find_particle_dependencies_loop_flags g socks _
  rw [hflags]
  rw [List.getD_eq_getElem _ _ (by simpa using hi), List.getElem_map,
    List.getD_eq_getElem _ _ hi]
  simp [PlaceholderDependencies.size, List.length_pos]

/-- Claim C5 witness: instantiation on a concrete graph and socket list. -/
theorem claim_C5_witness :
    (0 < ([({ is_output := false, id := 0 } : DataSocket)]).length) ∧
    ((find_particle_dependencies sampleGraph
        [{ is_output := false, id := 0 }]).2.getD 0 false = true ↔
      (sampleGraph.find_placeholder_dependencies
        (([({ is_output := false, id := 0 } : DataSocket)]).getD 0
          { is_output := false, id := 0 })).sockets ≠ []) :=
  ⟨by decide, claim_C5 sampleGraph [{ is_output := false, id := 0 }] 0 (by decide)⟩

/-- Claim C2: the derived-age provider writes ages only at the batch's active
particle indices: at each active index the written value is
`current_times[p] - birth_times[p]` under the Current variant and
`end_time - remaining_durations[p] - birth_times[p]` under the
Duration-and-end variant, while every other buffer entry keeps its
(uninitialized) pre-allocation content. -/
theorem claim_C2 (interface : InputProviderInterface)
    (hfresh : (interface.array_allocator.fresh interface.array_allocator.count).length =
      interface.array_allocator.array_size)
    (hidx : ∀ p ∈ interface.particles.pindices, p < interface.array_allocator.array_size) :
    ∃ arr, (AgeInputProvider.get interface).1 = some arr ∧
      (∀ p ∈ interface.particles.pindices,
        arr.buffer.getD p 0 =
          (match interface.particle_times with
            | ParticleTimes.Current current_times =>
                current_times.getD p 0 -
                  (interface.particles.attributes.get_float "Birth Time").getD p 0
            | ParticleTimes.DurationAndEnd remaining_durations end_time =>
                end_time - remaining_durations.getD p 0 -
                  (interface.particles.attributes.get_float "Birth Time").getD p 0)) ∧
      (∀ q, q ∉ interface.particles.pindices →
        arr.buffer.getD q 0 =
          (interface.array_allocator.fresh interface.array_allocator.count).getD q 0) := by
  obtain ⟨⟨attrs, pindices⟩, allocator, times, ctx⟩ := interface
  simp only at hfresh hidx
  cases times with
  | Current current_times =>
    refine ⟨_, rfl, ?_, ?_⟩
    · intro p hp
      simp only [AgeInputProvider.get, ArrayAllocator.allocate]
      rw [getD_foldl_set]
      rw [if_pos ⟨hp, by rw [hfresh]; exact hidx p hp⟩]
    · intro q hq
      simp only [AgeInputProvider.get, ArrayAllocator.allocate]
      rw [getD_foldl_set]
      rw [if_neg (fun h => hq h.1)]
  | DurationAndEnd remaining_durations end_time =>
    refine ⟨_, rfl, ?_, ?_⟩
    · intro p hp
      simp only [AgeInputProvider.get, ArrayAllocator.allocate]
      rw [getD_foldl_set]
      rw [if_pos ⟨hp, by rw [hfresh]; exact hidx p hp⟩]
    · intro q hq
      simp only [AgeInputProvider.get, ArrayAllocator.allocate]
      rw [getD_foldl_set]
      rw [if_neg (fun h => hq h.1)]

/-- Claim C2 witness: instantiation on a concrete batch (size 3, sparse
active set {0, 2}, Current-time variant). -/
theorem claim_C2_witness :
    ((sampleInterfaceAge.array_allocator.fresh sampleInterfaceAge.array_allocator.count).length =
      sampleInterfaceAge.array_allocator.array_size) ∧
    (∀ p ∈ sampleInterfaceAge.particles.pindices,
      p < sampleInterfaceAge.array_allocator.array_size) ∧
    (∃ arr, (AgeInputProvider.get sampleInterfaceAge).1 = some arr ∧
      (∀ p ∈ sampleInterfaceAge.particles.pindices,
        arr.buffer.getD p 0 =
          (match sampleInterfaceAge.particle_times with
            | ParticleTimes.Current current_times =>
                current_times.getD p 0 -
                  (sampleInterfaceAge.particles.attributes.get_float "Birth Time").getD p 0
            | ParticleTimes.DurationAndEnd remaining_durations end_time =>
                end_time - remaining_durations.getD p 0 -
                  (sampleInterfaceAge.particles.attributes.get_float "Birth Time").getD p 0)) ∧
      (∀ q, q ∉ sampleInterfaceAge.particles.pindices →
        arr.buffer.getD q 0 =
          (sampleInterfaceAge.array_allocator.fresh
            sampleInterfaceAge.array_allocator.count).getD q 0)) := by
  have h1 : (sampleInterfaceAge.array_allocator.fresh
      sampleInterfaceAge.array_allocator.count).length =
      sampleInterfaceAge.array_allocator.array_size := rfl
  have h2 : ∀ p ∈ sampleInterfaceAge.particles.pindices,
      p < sampleInterfaceAge.array_allocator.array_size := by simp [sampleInterfaceAge]
  exact ⟨h1, h2, claim_C2 sampleInterfaceAge h1 h2⟩

/-- Claim C6: whenever the action context is absent or not of the
collision-event kind, the collision-normal provider takes the fatal
contract-violation path (`none`); it never substitutes a default value. -/
theorem claim_C6 (interface : InputProviderInterface)
    (h : ∀ normals, interface.action_context ≠
      some (ActionContext.collisionEventInfo normals)) :
    (CollisionNormalInputProvider.get interface).1 = none := by
  obtain ⟨ps, allocator, times, ctx⟩ := interface
  simp only at h
  cases ctx with
  | none => rfl
  | some c =>
    cases c with
    | collisionEventInfo normals => exact absurd rfl (h normals)
    | otherContext t => rfl

/-- Claim C6 witness: instantiation on a concrete interface whose context is
present but of the wrong kind. -/
theorem claim_C6_witness :
    (∀ normals, sampleInterfaceCollision.action_context ≠
      some (ActionContext.collisionEventInfo normals)) ∧
    (CollisionNormalInputProvider.get sampleInterfaceCollision).1 = none := by
  have h : ∀ normals, sampleInterfaceCollision.action_context ≠
      some (ActionContext.collisionEventInfo normals) := by
    intro normals hn
    simp [sampleInterfaceCollision] at hn
  exact ⟨h, claim_C6 sampleInterfaceCollision h⟩

/-- Claim C7: the constructed Particle Function's providers array has exactly
one entry per Dependency Set element, the provider at index i comes from the
virtual socket at index i of the Dependency Set, and the runtime function's
formal inputs are exactly the Dependency Set's sockets in order. -/
theorem claim_C7 (name : String) (sockets_to_compute : List DataSocket)
    (flags : List Bool) (dependencies : SocketDependencies)
    (h : dependencies.sockets.length = dependencies.vsockets.length) :
    ∃ pf, create_particle_function_from_sockets name sockets_to_compute flags
        dependencies = Except.ok pf ∧
      pf.input_providers.length = dependencies.sockets.length ∧
      pf.fn_with_deps.inputs = dependencies.sockets ∧
      (∀ i, i < dependencies.sockets.length →
        pf.input_providers.getD i none =
          create_input_provider (dependencies.vsockets.getD i default_vsocket)) := by
  refine ⟨_, rfl, ?_, rfl, ?_⟩
  · simp [create_particle_function_from_sockets, create_function__with_deps]
  · intro i hi
    simp only [create_particle_function_from_sockets, create_function__with_deps]
    rw [List.getD_eq_getElem _ _ (by simpa using hi), List.getElem_map,
      List.getElem_range]

/-- Claim C7 witness: instantiation on a concrete Dependency Set with one
paired entry. -/
theorem claim_C7_witness :
    sampleDependencies.sockets.length = sampleDependencies.vsockets.length ∧
    (∃ pf, create_particle_function_from_sockets "Node Inputs" [] []
        sampleDependencies = Except.ok pf ∧
      pf.input_providers.length = sampleDependencies.sockets.length ∧
      pf.fn_with_deps.inputs = sampleDependencies.sockets ∧
      (∀ i, i < sampleDependencies.sockets.length →
        pf.input_providers.getD i none =
          create_input_provider (sampleDependencies.vsockets.getD i default_vsocket))) :=
  ⟨rfl, claim_C7 "Node Inputs" [] [] sampleDependencies rfl⟩

/-- Claim C8: the attribute-backed provider performs no allocation (the
allocator state is returned unchanged) and its view is non-owning, while the
derived-age provider performs exactly one allocation from the batch-scoped
allocator and its view is owning. -/
theorem claim_C8 (interface : InputProviderInterface) (m_name : String) :
    ((AttributeInputProvider.get m_name interface).2 = interface.array_allocator ∧
      ∃ arr, (AttributeInputProvider.get m_name interface).1 = some arr ∧
        arr.is_owned = false) ∧
    ((AgeInputProvider.get interface).2.count = interface.array_allocator.count + 1 ∧
      ∃ arr, (AgeInputProvider.get interface).1 = some arr ∧ arr.is_owned = true) :=
  ⟨⟨rfl, ⟨_, rfl, rfl⟩⟩, ⟨rfl, ⟨_, rfl, rfl⟩⟩⟩

/-- Claim C9: the top-level entry point returns a success/structured-error
result type and, in the current behaviour set, always produces the success
variant carrying a Particle Function; the error variant is never produced. -/
theorem claim_C9 (vnode : VirtualNode) (data_graph : VTreeDataGraph) :
    ∃ pf, create_particle_function vnode data_graph = Except.ok pf :=
  ⟨_, rfl⟩

/-- Claim C10: the constant function receives only the interpreted execution
body and never the compiled one, while the runtime-dependent function
unconditionally receives both the interpreted and the compiled body. -/
theorem claim_C10 (function_name : String) (sockets_without : List DataSocket)
    (sockets_with : List DataSocket) (dependencies : SocketDependencies) :
    (FunctionBody.TupleCallBody ∈
        (create_function__without_deps function_name sockets_without).bodies ∧
      FunctionBody.LLVMBuildIRBody ∉
        (create_function__without_deps function_name sockets_without).bodies) ∧
    (FunctionBody.TupleCallBody ∈
        (create_function__with_deps function_name sockets_with dependencies).1.bodies ∧
      FunctionBody.LLVMBuildIRBody ∈
        (create_function__with_deps function_name sockets_with dependencies).1.bodies) := by
  refine ⟨⟨?_, ?_⟩, ⟨?_, ?_⟩⟩ <;>
    simp [create_function__without_deps, create_function__with_deps]

end BParticles
